import Mathlib

/-!
Verification of the response-normalization layer of this repository
(`src/common/aws.py`, function `parse_nova_response` and its helpers
`_find_texts` and `_try_parse_json`).

Modelling choices (shallow embedding of the Python code):

* A Python `str` is a sequence of Unicode code points: modelled as `List Char`
  (`PyStr`).  Python slicing/`len` are per code point, matching list operations.
* A parsed JSON value (what `json.loads` returns) is the inductive `Json`.
  Python dicts coming from `json.loads` preserve document order and have
  unique keys; they are modelled as ordered association lists.  JSON numbers
  are modelled as integers: no line of the code inspects a numeric value, it
  only distinguishes the constructor.
* `json.loads` itself is Python-stdlib code, not code of this repository: it
  is passed in as an abstract function `loads : PyStr → Option Json`
  (`none` = the call raises), and theorems state the properties of the real
  parser they rely on (e.g. tolerance of surrounding whitespace) as
  hypotheses.  Likewise `bytes.decode("utf-8")` is abstracted: the function
  receives `Option PyStr`, `none` meaning the decode raised.
* Python exceptions are modelled by `Except PyError`; the distinct dynamic
  failure modes of the function are separate constructors.
-/

abbrev PyStr := List Char

/-- A parsed JSON value, as produced by `json.loads`.  Objects are ordered
association lists (Python dicts preserve insertion order); numbers are
modelled as integers since the code never inspects a numeric value. -/
inductive Json where
  | null
  | bool (b : Bool)
  | num (n : Int)
  | str (s : PyStr)
  | arr (items : List Json)
  | obj (entries : List (PyStr × Json))

/-- The exceptions `parse_nova_response` can raise. -/
inductive PyError where
  | unicodeDecodeError
  | jsonDecodeError
  | attributeError
  | typeError
  | valueError (msg : PyStr)
deriving DecidableEq

/-- The dictionary keys and the fence marker the code mentions, as named
constants (Python string literals `"output"`, `"message"`, `"content"`,
`"text"`, "```"). -/
def output_key : PyStr := "output".data

def message_key : PyStr := "message".data

def content_key : PyStr := "content".data

def text_key : PyStr := "text".data

def fence_marker : PyStr := "```".data

/-- Characters stripped by Python `str.strip()` (the ASCII whitespace set;
the code never feeds it non-ASCII whitespace-relevant data). -/
def pyWhitespaceChar (c : Char) : Bool :=
  c = ' ' || c = '\t' || c = '\n' || c = '\r' || c = '\x0b' || c = '\x0c'

/-- Python `s.strip()`: drop whitespace from both ends (right end first;
the two orders agree). -/
def py_strip (s : PyStr) : PyStr :=
  ((s.reverse.dropWhile pyWhitespaceChar).reverse).dropWhile pyWhitespaceChar

/-- Python `s.startswith(p)`. -/
def py_startswith (s p : PyStr) : Bool := p.isPrefixOf s

/-- Python `s.endswith(p)`. -/
def py_endswith (s p : PyStr) : Bool := p.reverse.isPrefixOf s.reverse

/-- Python `s[:-n]` for `n ≥ 1`: drop the last `n` code points. -/
def py_drop_right (s : PyStr) (n : Nat) : PyStr := (s.reverse.drop n).reverse

/-- Python `s.split("\n", 1)`: `some rest` is the part after the first
newline when one exists (`len(lines) > 1`), `none` when there is none. -/
def after_first_newline : PyStr → Option PyStr
  | [] => none
  | c :: rest => if c = '\n' then some rest else after_first_newline rest

/-- Lookup in a Python dict (modelled as an ordered association list with
unique keys, as produced by `json.loads`). -/
def dict_get : List (PyStr × Json) → PyStr → Option Json
  | [], _ => none
  | (k, v) :: rest, key => if k = key then some v else dict_get rest key

/-- Python `obj.get(key, default)`: raises `AttributeError` when `obj` is not
a dict (e.g. `model_response.get("output", {})` on a top-level JSON list). -/
def py_get : Json → PyStr → Json → Except PyError Json
  | .obj kvs, key, dflt => .ok ((dict_get kvs key).getD dflt)
  | _, _, _ => .error .attributeError

/-- Python `for item in x`: lists yield their items, dicts their keys,
strings their characters (as 1-character strings); anything else raises
`TypeError`. -/
def py_iter : Json → Except PyError (List Json)
  | .arr items => .ok items
  | .obj kvs => .ok (kvs.map (fun kv => .str kv.1))
  | .str s => .ok (s.map (fun c => .str [c]))
  | _ => .error .typeError

/-- Python `x[0]` then guarded use, for the legacy path
`model_response["content"][0]`: indexing a list or string succeeds when
non-empty; any other receiver or an empty one raises (caught by the
surrounding `try`). -/
def py_index_zero : Json → Option Json
  | .arr (x :: _) => some x
  | .str (c :: _) => some (.str [c])
  | _ => none

/-- The legacy lookup `model_response["content"][0]["text"]`; `none` means
some step raised (swallowed by the `try/except` around it).  Note the final
subscript only succeeds on a dict; on a string/list element it raises
`TypeError`, on a dict without the key `KeyError`. -/
def legacy_text_lookup (m : Json) : Option Json :=
  match m with
  | .obj kvs =>
    match dict_get kvs (content_key) with
    | some c =>
      match py_index_zero c with
      | some (.obj kvs2) => dict_get kvs2 (text_key)
      | _ => none
    | none => none
  | _ => none

mutual
/-- `_find_texts(obj)` (aws.py lines 113-122): yield every string-valued
`text` field, the node's own `text` entry first, then the values (document
order), depth first. -/
def _find_texts : Json → List PyStr
  | .obj kvs =>
      (match dict_get kvs (text_key) with
       | some (.str s) => [s]
       | _ => []) ++ _find_texts_entries kvs
  | .arr items => _find_texts_list items
  | _ => []

/-- `_find_texts` over the items of a JSON list. -/
def _find_texts_list : List Json → List PyStr
  | [] => []
  | j :: rest => _find_texts j ++ _find_texts_list rest

/-- `_find_texts` over the values of a JSON object, in document order. -/
def _find_texts_entries : List (PyStr × Json) → List PyStr
  | [] => []
  | kv :: rest => _find_texts kv.2 ++ _find_texts_entries rest
end

/-- The fence-stripping half of `_try_parse_json` (aws.py lines 128-138):
strip, and when the result opens with a triple backtick take what follows
the first newline, minus a closing triple backtick, stripped again. -/
def strip_markdown_fence (text : PyStr) : PyStr :=
  let cleaned := py_strip text
  if py_startswith cleaned (fence_marker) then
    match after_first_newline cleaned with
    | some content =>
        let content2 := if py_endswith content (fence_marker) then py_drop_right content 3 else content
        py_strip content2
    | none => cleaned
  else cleaned

/-- `_try_parse_json(text)` (aws.py lines 124-142) for a string argument.
Python returns `json.loads(cleaned)` on success and `None` on failure; a
successfully parsed JSON `null` is also Python `None`, so the caller cannot
tell it from a failure — hence `some .null` collapses to `none` here.  The
`not isinstance(text, str)` early-`None` is modelled at the call sites,
which pass a known string. -/
def _try_parse_json (loads : PyStr → Option Json) (text : PyStr) : Option Json :=
  match loads (strip_markdown_fence text) with
  | some .null => none
  | r => r

/-- `if first_text is None: first_text = t`. -/
def set_if_none (ft : Option Json) (t : Json) : Option Json :=
  match ft with
  | some x => some x
  | none => some t

/-- The loop over `content_list` (aws.py lines 147-153): record the first
string `text` of a dict block as `first_text`, return the first block whose
text parses as JSON.  Result: (early return value, final `first_text`). -/
def scan_content_blocks (loads : PyStr → Option Json) :
    List Json → Option Json → Option Json × Option Json
  | [], ft => (none, ft)
  | item :: rest, ft =>
    match item with
    | .obj kvs =>
      match dict_get kvs (text_key) with
      | some (.str t) =>
        let ft2 := set_if_none ft (.str t)
        match _try_parse_json loads t with
        | some r => (some r, ft2)
        | none => scan_content_blocks loads rest ft2
      | _ => scan_content_blocks loads rest ft
    | _ => scan_content_blocks loads rest ft

/-- The loop over `_find_texts(model_response)` (aws.py lines 167-172). -/
def scan_found_texts (loads : PyStr → Option Json) :
    List PyStr → Option Json → Option Json × Option Json
  | [], ft => (none, ft)
  | t :: rest, ft =>
    let ft2 := set_if_none ft (.str t)
    match _try_parse_json loads t with
    | some r => (some r, ft2)
    | none => scan_found_texts loads rest ft2

/-- `model_response.get("output", {}).get("message", {}).get("content", [])`
followed by entering the `for` loop (aws.py lines 145-147): each step can
raise on an ill-typed envelope. -/
def get_content_blocks (m : Json) : Except PyError (List Json) := do
  let o ← py_get m (output_key) (.obj [])
  let msg ← py_get o (message_key) (.obj [])
  let cl ← py_get msg (content_key) (.arr [])
  py_iter cl

/-- The preview in the final `ValueError` (aws.py line 179):
`raw[:1000] + ("..." if len(raw) > 1000 else "")`. -/
def raw_preview (raw : PyStr) : PyStr :=
  raw.take 1000 ++ (if 1000 < raw.length then "...".data else [])

/-- The full `ValueError` message (aws.py line 180). -/
def extraction_error_message (raw : PyStr) : PyStr :=
  ("Unable to extract text from model response. Raw response preview: ".data) ++ raw_preview raw

/-- `parse_nova_response` after the successful top-level `json.loads`
(aws.py lines 144-180). -/
def parse_nova_core (loads : PyStr → Option Json) (raw : PyStr) (m : Json) :
    Except PyError Json :=
  match get_content_blocks m with
  | .error e => .error e
  | .ok items =>
    match scan_content_blocks loads items none with
    | (some r, _) => .ok r
    | (none, ft0) =>
      let step2 : Option Json × Option Json :=
        match legacy_text_lookup m with
        | some t =>
          ((match t with
            | .str s => _try_parse_json loads s
            | _ => none),
           set_if_none ft0 t)
        | none => (none, ft0)
      match step2.1 with
      | some r => .ok r
      | none =>
        match scan_found_texts loads (_find_texts m) step2.2 with
        | (some r, _) => .ok r
        | (none, some t) => .ok (.obj [(text_key, t)])
        | (none, none) => .error (.valueError (extraction_error_message raw))

/-- `parse_nova_response(response_bytes)` (aws.py lines 83-180).
`decoded` is the result of `response_bytes.decode("utf-8")` (`none` = the
decode raised).  When the top-level `json.loads` raises, the `except`
handler retries `json.loads(raw)` and re-raises on failure; `loads` being a
function, the retry is modelled literally but always takes the same branch. -/
def parse_nova_response (loads : PyStr → Option Json) (decoded : Option PyStr) :
    Except PyError Json :=
  match decoded with
  | none => .error .unicodeDecodeError
  | some raw =>
    match loads raw with
    | some m => parse_nova_core loads raw m
    | none =>
      match loads raw with
      | some v => .ok v
      | none => .error .jsonDecodeError

/-- The Nova envelope `{"output":{"message":{"content":[{"text": T}]}}}`. -/
def nova_envelope (T : PyStr) : Json :=
  .obj [(output_key, .obj [(message_key,
    .obj [(content_key, .arr [.obj [(text_key, .str T)]])])])]

/-- The legacy envelope `{"content":[{"text": T}]}` (no `output` key). -/
def legacy_envelope (T : PyStr) : Json :=
  .obj [(content_key, .arr [.obj [(text_key, .str T)]])]

/-- Whether the normalizer returned (rather than raised). -/
def returns_value : Except PyError Json → Bool
  | .ok _ => true
  | .error _ => false

/-- Whether a returned value is a mapping (Python dict). -/
def is_mapping : Except PyError Json → Bool
  | .ok (.obj _) => true
  | _ => false

/-- A `loads` oracle built from a finite table, consulted on the stripped
input so that it ignores surrounding whitespace like the real `json.loads`. -/
def table_loads (table : List (PyStr × Json)) : PyStr → Option Json :=
  fun s => dict_get table (py_strip s)

example : py_strip (" ab ".data) = "ab".data := by decide
example : strip_markdown_fence ("```json\nx\n```".data) = "x".data := by decide
example : _find_texts (legacy_envelope ("hi".data)) = ["hi".data] := by decide


/-- First element of `ts` whose `_try_parse_json` succeeds, as parsed. -/
def first_parsed (loads : PyStr → Option Json) : List PyStr → Option Json
  | [] => none
  | t :: rest =>
    match _try_parse_json loads t with
    | some r => some r
    | none => first_parsed loads rest

/-- The string `text` values the content-block loop (step 1) considers, in
order: one per dict block carrying a string `text`. -/
def struct_texts : List Json → List PyStr
  | [] => []
  | .obj kvs :: rest =>
      (match dict_get kvs (text_key) with
       | some (.str t) => [t]
       | _ => []) ++ struct_texts rest
  | _ :: rest => struct_texts rest

/-- `opt_or a b = a` when `a` is `some`, else `b`. -/
def opt_or (a b : Option Json) : Option Json :=
  match a with
  | some x => some x
  | none => b

/-- Every `first_text` candidate the function records, in recording order:
step-1 string texts, then the legacy value (a non-string is recorded too!),
then the recursively found texts. -/
def recorded_candidates (m : Json) (items : List Json) : List Json :=
  (struct_texts items).map Json.str ++
    (match legacy_text_lookup m with | some t => [t] | none => []) ++
    (_find_texts m).map Json.str

/-- Whether an error is one of the two "malformed input" modes of the spec's
`MalformedResponse` (undecodable bytes, or text that is not top-level JSON). -/
def is_malformed_error : PyError → Bool
  | .unicodeDecodeError => true
  | .jsonDecodeError => true
  | _ => false

-- ### Lemmas about the two scanning loops

theorem try_parse_ne_null (loads : PyStr → Option Json) (t : PyStr) :
    _try_parse_json loads t ≠ some Json.null := by
  unfold _try_parse_json
  cases h : loads (strip_markdown_fence t) with
  | none => simp
  | some v => cases v <;> simp

theorem scan_found_texts_fst (loads : PyStr → Option Json) (ts : List PyStr)
    (ft : Option Json) :
    (scan_found_texts loads ts ft).1 = first_parsed loads ts := by
  induction ts generalizing ft with
  | nil => rfl
  | cons t rest ih =>
    simp only [scan_found_texts, first_parsed]
    cases _try_parse_json loads t with
    | some r => rfl
    | none => exact ih _

theorem scan_found_texts_snd_some (loads : PyStr → Option Json)
    (ts : List PyStr) (x : Json) :
    (scan_found_texts loads ts (some x)).2 = some x := by
  induction ts with
  | nil => rfl
  | cons t rest ih =>
    simp only [scan_found_texts, set_if_none]
    cases _try_parse_json loads t with
    | some r => rfl
    | none => exact ih

theorem scan_found_texts_snd_ne_none (loads : PyStr → Option Json)
    (ts : List PyStr) (ft : Option Json)
    (h : ft ≠ none ∨ ts ≠ []) :
    (scan_found_texts loads ts ft).2 ≠ none := by
  cases ft with
  | some x =>
    cases ts with
    | nil => simp [scan_found_texts]
    | cons t rest =>
      simp only [scan_found_texts, set_if_none]
      cases _try_parse_json loads t with
      | some r => simp
      | none => rw [scan_found_texts_snd_some]; simp
  | none =>
    cases ts with
    | nil => simp at h
    | cons t rest =>
      simp only [scan_found_texts, set_if_none]
      cases _try_parse_json loads t with
      | some r => simp
      | none => rw [scan_found_texts_snd_some]; simp

theorem scan_found_texts_all_fail (loads : PyStr → Option Json)
    (ts : List PyStr) (ft : Option Json)
    (h : ∀ t ∈ ts, _try_parse_json loads t = none) :
    scan_found_texts loads ts ft = (none, opt_or ft (ts.head?.map Json.str)) := by
  induction ts generalizing ft with
  | nil => cases ft <;> rfl
  | cons t rest ih =>
    have ht : _try_parse_json loads t = none := h t (by simp)
    simp only [scan_found_texts, ht]
    rw [ih _ (fun u hu => h u (by simp [hu]))]
    cases ft <;> cases rest <;> rfl

theorem scan_content_blocks_fst (loads : PyStr → Option Json)
    (items : List Json) (ft : Option Json) :
    (scan_content_blocks loads items ft).1 = first_parsed loads (struct_texts items) := by
  induction items generalizing ft with
  | nil => rfl
  | cons item rest ih =>
    cases item with
    | obj kvs =>
      simp only [scan_content_blocks, struct_texts]
      cases hg : dict_get kvs (text_key) with
      | none => simpa using ih ft
      | some v =>
        cases v with
        | str t =>
          simp only [first_parsed, List.singleton_append]
          cases _try_parse_json loads t with
          | some r => rfl
          | none => exact ih _
        | null => simpa using ih ft
        | bool b => simpa using ih ft
        | num n => simpa using ih ft
        | arr xs => simpa using ih ft
        | obj os => simpa using ih ft
    | null => simpa [scan_content_blocks, struct_texts] using ih ft
    | bool b => simpa [scan_content_blocks, struct_texts] using ih ft
    | num n => simpa [scan_content_blocks, struct_texts] using ih ft
    | str s => simpa [scan_content_blocks, struct_texts] using ih ft
    | arr xs => simpa [scan_content_blocks, struct_texts] using ih ft

theorem scan_content_blocks_all_fail (loads : PyStr → Option Json)
    (items : List Json) (ft : Option Json)
    (h : ∀ t ∈ struct_texts items, _try_parse_json loads t = none) :
    scan_content_blocks loads items ft =
      (none, opt_or ft ((struct_texts items).head?.map Json.str)) := by
  induction items generalizing ft with
  | nil => cases ft <;> rfl
  | cons item rest ih =>
    cases item with
    | obj kvs =>
      simp only [scan_content_blocks, struct_texts]
      cases hg : dict_get kvs (text_key) with
      | none =>
        rw [ih ft (by simpa [struct_texts, hg] using h)]
        simp [struct_texts, hg]
      | some v =>
        cases v with
        | str t =>
          have ht : _try_parse_json loads t = none := by
            apply h; simp [struct_texts, hg]
          simp only [ht]
          rw [ih _ (fun u hu => h u (by simp [struct_texts, hg, hu]))]
          simp only [struct_texts, hg, List.singleton_append, List.head?_cons,
            Option.map_some]
          cases ft <;> cases struct_texts rest <;> rfl
        | null =>
          rw [ih ft (by simpa [struct_texts, hg] using h)]; simp [struct_texts, hg]
        | bool b =>
          rw [ih ft (by simpa [struct_texts, hg] using h)]; simp [struct_texts, hg]
        | num n =>
          rw [ih ft (by simpa [struct_texts, hg] using h)]; simp [struct_texts, hg]
        | arr xs =>
          rw [ih ft (by simpa [struct_texts, hg] using h)]; simp [struct_texts, hg]
        | obj os =>
          rw [ih ft (by simpa [struct_texts, hg] using h)]; simp [struct_texts, hg]
    | null => exact ih ft h
    | bool b => exact ih ft h
    | num n => exact ih ft h
    | str s => exact ih ft h
    | arr xs => exact ih ft h

theorem first_parsed_some (loads : PyStr → Option Json) (ts : List PyStr)
    (v : Json) (h : first_parsed loads ts = some v) :
    ∃ t, t ∈ ts ∧ _try_parse_json loads t = some v := by
  induction ts with
  | nil => simp [first_parsed] at h
  | cons t rest ih =>
    simp only [first_parsed] at h
    cases ht : _try_parse_json loads t with
    | some r =>
      simp only [ht] at h
      exact ⟨t, by simp, by rw [ht]; exact h⟩
    | none =>
      simp only [ht] at h
      obtain ⟨u, hu, hpu⟩ := ih h
      exact ⟨u, by simp [hu], hpu⟩

theorem first_parsed_eq_none (loads : PyStr → Option Json) (ts : List PyStr)
    (h : first_parsed loads ts = none) :
    ∀ t ∈ ts, _try_parse_json loads t = none := by
  induction ts with
  | nil => simp
  | cons t rest ih =>
    intro u hu
    simp only [first_parsed] at h
    cases ht : _try_parse_json loads t with
    | some r =>
      simp only [ht] at h
      exact Option.noConfusion h
    | none =>
      simp only [ht] at h
      rcases List.mem_cons.mp hu with rfl | hu2
      · exact ht
      · exact ih h u hu2

-- ### Fence stripping

/-- The markdown wrapping of claim C4: `"```" + tag + "\n" + T + "\n```"`. -/
def fence_wrap (tag T : PyStr) : PyStr :=
  fence_marker ++ tag ++ ['\n'] ++ T ++ ('\n' :: fence_marker)

theorem py_strip_append_newline (s : PyStr) : py_strip (s ++ ['\n']) = py_strip s := by
  unfold py_strip
  rw [show (s ++ ['\n']).reverse = '\n' :: s.reverse by simp]
  rw [List.dropWhile_cons, show pyWhitespaceChar '\n' = true from rfl]
  simp

theorem py_strip_backtick_ends (mid : PyStr) :
    py_strip ('`' :: mid ++ ['`']) = '`' :: mid ++ ['`'] := by
  have hb : pyWhitespaceChar '`' = false := rfl
  simp [py_strip, hb, List.dropWhile_cons]

theorem after_first_newline_append (A rest : PyStr) (h : '\n' ∉ A) :
    after_first_newline (A ++ '\n' :: rest) = some rest := by
  induction A with
  | nil => simp [after_first_newline]
  | cons a as ih =>
    have ha : a ≠ '\n' := by intro hc; exact h (by simp [hc])
    simp only [List.cons_append, after_first_newline, if_neg ha]
    exact ih (fun hc => h (by simp [hc]))

theorem strip_markdown_fence_wrap (tag T : PyStr) (htag : '\n' ∉ tag) :
    strip_markdown_fence (fence_wrap tag T) = py_strip T := by
  have hstrip : py_strip (fence_wrap tag T) = fence_wrap tag T := by
    rw [show fence_wrap tag T
          = '`' :: (('`' :: '`' :: tag ++ '\n' :: T ++ ['\n', '`', '`']) ++ ['`']) by
        simp [fence_wrap, fence_marker]]
    exact py_strip_backtick_ends _
  have hsw : py_startswith (fence_wrap tag T) (fence_marker) = true := by
    rw [show fence_wrap tag T
          = '`' :: '`' :: '`' :: (tag ++ '\n' :: T ++ ['\n', '`', '`', '`']) by
        simp [fence_wrap, fence_marker]]
    simp [py_startswith, fence_marker, List.isPrefixOf]
  have hafter : after_first_newline (fence_wrap tag T) = some (T ++ ['\n', '`', '`', '`']) := by
    rw [show fence_wrap tag T
          = ('`' :: '`' :: '`' :: tag) ++ '\n' :: (T ++ ['\n', '`', '`', '`']) by
        simp [fence_wrap, fence_marker]]
    exact after_first_newline_append _ _ (by simp [htag])
  have hend : py_endswith (T ++ ['\n', '`', '`', '`']) (fence_marker) = true := by
    unfold py_endswith
    rw [show (T ++ ['\n', '`', '`', '`']).reverse = '`' :: '`' :: '`' :: '\n' :: T.reverse by simp]
    simp [fence_marker, List.isPrefixOf]
  have hdrop : py_drop_right (T ++ ['\n', '`', '`', '`']) 3 = T ++ ['\n'] := by
    unfold py_drop_right
    rw [show (T ++ ['\n', '`', '`', '`']).reverse = '`' :: '`' :: '`' :: '\n' :: T.reverse by simp]
    simp
  unfold strip_markdown_fence
  rw [hstrip]
  simp only [hsw, hafter, hend, if_true, hdrop]
  exact py_strip_append_newline T

theorem strip_markdown_fence_not_fenced (T : PyStr)
    (h : py_startswith (py_strip T) (fence_marker) = false) :
    strip_markdown_fence T = py_strip T := by
  unfold strip_markdown_fence
  simp [h]

-- ### Containment of the step-1 candidates in the recursive traversal

theorem dict_get_mem (kvs : List (PyStr × Json)) (k : PyStr) (v : Json)
    (h : dict_get kvs k = some v) : (k, v) ∈ kvs := by
  induction kvs with
  | nil => simp [dict_get] at h
  | cons kv rest ih =>
    obtain ⟨k0, v0⟩ := kv
    simp only [dict_get] at h
    by_cases hk : k0 = k
    · rw [if_pos hk] at h
      simp only [Option.some.injEq] at h
      simp [hk, h]
    · rw [if_neg hk] at h
      simp [ih h]

theorem mem_find_texts_entries (kvs : List (PyStr × Json)) (k : PyStr) (v : Json)
    (hkv : (k, v) ∈ kvs) (t : PyStr) (ht : t ∈ _find_texts v) :
    t ∈ _find_texts_entries kvs := by
  induction kvs with
  | nil => simp at hkv
  | cons kv rest ih =>
    simp only [List.mem_cons] at hkv
    cases hkv with
    | inl heq =>
      subst heq
      simp [_find_texts_entries, ht]
    | inr hmem =>
      simp [_find_texts_entries, ih hmem]

theorem mem_find_texts_of_value (kvs : List (PyStr × Json)) (k : PyStr) (v : Json)
    (h : dict_get kvs k = some v) (t : PyStr) (ht : t ∈ _find_texts v) :
    t ∈ _find_texts (.obj kvs) := by
  have : t ∈ _find_texts_entries kvs := mem_find_texts_entries kvs k v (dict_get_mem kvs k v h) t ht
  simp [_find_texts, this]

theorem struct_texts_subset_find_texts_list (xs : List Json) (t : PyStr)
    (ht : t ∈ struct_texts xs) : t ∈ _find_texts_list xs := by
  induction xs with
  | nil => simp [struct_texts] at ht
  | cons j rest ih =>
    cases j with
    | obj kvs =>
      simp only [struct_texts] at ht
      rw [List.mem_append] at ht
      cases ht with
      | inl h1 =>
        cases hg : dict_get kvs (text_key) with
        | none => rw [hg] at h1; simp at h1
        | some v =>
          cases v with
          | str s =>
            rw [hg] at h1
            simp only [List.mem_singleton] at h1
            subst h1
            have : t ∈ _find_texts (.obj kvs) := by
              simp [_find_texts, hg]
            simp [_find_texts_list, this]
          | null => rw [hg] at h1; simp at h1
          | bool b => rw [hg] at h1; simp at h1
          | num n => rw [hg] at h1; simp at h1
          | arr xs2 => rw [hg] at h1; simp at h1
          | obj os => rw [hg] at h1; simp at h1
      | inr h2 => simp [_find_texts_list, ih h2]
    | null => simp [_find_texts_list]; exact Or.inr (ih ht)
    | bool b => simp [_find_texts_list]; exact Or.inr (ih ht)
    | num n => simp [_find_texts_list]; exact Or.inr (ih ht)
    | str s => simp [_find_texts_list]; exact Or.inr (ih ht)
    | arr xs2 =>
      simp only [struct_texts] at ht
      simp [_find_texts_list]
      exact Or.inr (ih ht)

theorem struct_texts_of_str_items (xs : List Json) (h : ∀ j ∈ xs, ∃ s, j = Json.str s) :
    struct_texts xs = [] := by
  induction xs with
  | nil => rfl
  | cons j rest ih =>
    obtain ⟨s, hs⟩ := h j (by simp)
    subst hs
    simp only [struct_texts]
    exact ih (fun j hj => h j (by simp [hj]))

theorem struct_texts_subset_iter (cl : Json) (items : List Json)
    (h : py_iter cl = .ok items) (t : PyStr) (ht : t ∈ struct_texts items) :
    t ∈ _find_texts cl := by
  cases cl with
  | arr xs =>
    simp only [py_iter, Except.ok.injEq] at h
    subst h
    simpa [_find_texts] using struct_texts_subset_find_texts_list xs t ht
  | obj kvs =>
    simp only [py_iter, Except.ok.injEq] at h
    subst h
    rw [struct_texts_of_str_items _ (by
      intro j hj
      rw [List.mem_map] at hj
      obtain ⟨kv, _, rfl⟩ := hj
      exact ⟨kv.1, rfl⟩)] at ht
    simp at ht
  | str s =>
    simp only [py_iter, Except.ok.injEq] at h
    subst h
    rw [struct_texts_of_str_items _ (by
      intro j hj
      rw [List.mem_map] at hj
      obtain ⟨c, _, rfl⟩ := hj
      exact ⟨[c], rfl⟩)] at ht
    simp at ht
  | null => simp [py_iter] at h
  | bool b => simp [py_iter] at h
  | num n => simp [py_iter] at h

theorem struct_texts_subset_chain (m : Json) (items : List Json)
    (h : get_content_blocks m = .ok items) (t : PyStr) (ht : t ∈ struct_texts items) :
    t ∈ _find_texts m := by
  cases m with
  | null => simp [get_content_blocks, py_get, bind, Except.bind] at h
  | bool b => simp [get_content_blocks, py_get, bind, Except.bind] at h
  | num n => simp [get_content_blocks, py_get, bind, Except.bind] at h
  | str s => simp [get_content_blocks, py_get, bind, Except.bind] at h
  | arr xs => simp [get_content_blocks, py_get, bind, Except.bind] at h
  | obj kvs =>
    simp only [get_content_blocks, py_get, bind, Except.bind] at h
    cases ho : dict_get kvs (output_key) with
    | none =>
      rw [ho] at h
      simp [dict_get, py_iter] at h
      subst h
      simp [struct_texts] at ht
    | some o =>
      rw [ho] at h
      simp only [Option.getD_some] at h
      cases o with
      | null => simp at h
      | bool b => simp at h
      | num n => simp at h
      | str s => simp at h
      | arr xs => simp at h
      | obj okvs =>
        simp only [] at h
        cases hm : dict_get okvs (message_key) with
        | none =>
          rw [hm] at h
          simp [dict_get, py_iter] at h
          subst h
          simp [struct_texts] at ht
        | some msgv =>
          rw [hm] at h
          simp only [Option.getD_some] at h
          cases msgv with
          | null => simp at h
          | bool b => simp at h
          | num n => simp at h
          | str s => simp at h
          | arr xs => simp at h
          | obj mkvs =>
            simp only [] at h
            cases hc : dict_get mkvs (content_key) with
            | none =>
              rw [hc] at h
              simp [py_iter] at h
              subst h
              simp [struct_texts] at ht
            | some cl =>
              rw [hc] at h
              simp only [Option.getD_some] at h
              have h1 : t ∈ _find_texts cl := struct_texts_subset_iter cl items h t ht
              have h2 : t ∈ _find_texts (.obj mkvs) :=
                mem_find_texts_of_value mkvs (content_key) cl hc t h1
              have h3 : t ∈ _find_texts (.obj okvs) :=
                mem_find_texts_of_value okvs (message_key) (.obj mkvs) hm t h2
              exact mem_find_texts_of_value kvs (output_key) (.obj okvs) ho t h3

-- ### Evaluating the pipeline on the two documented envelopes

theorem get_content_blocks_nova (T : PyStr) :
    get_content_blocks (nova_envelope T) = .ok [.obj [(text_key, .str T)]] := rfl

theorem get_content_blocks_legacy (T : PyStr) :
    get_content_blocks (legacy_envelope T) = .ok [] := rfl

theorem legacy_text_lookup_nova (T : PyStr) :
    legacy_text_lookup (nova_envelope T) = none := rfl

theorem legacy_text_lookup_legacy (T : PyStr) :
    legacy_text_lookup (legacy_envelope T) = some (.str T) := rfl

theorem find_texts_nova (T : PyStr) : _find_texts (nova_envelope T) = [T] := rfl

theorem find_texts_legacy (T : PyStr) : _find_texts (legacy_envelope T) = [T] := rfl

theorem scan_nova (loads : PyStr → Option Json) (T : PyStr) :
    scan_content_blocks loads [.obj [(text_key, .str T)]] none =
      (match _try_parse_json loads T with
       | some r => (some r, some (.str T))
       | none => (none, some (.str T))) := by
  cases h : _try_parse_json loads T <;>
    simp [scan_content_blocks, h, set_if_none, dict_get]

theorem parse_nova_core_nova (loads : PyStr → Option Json) (raw T : PyStr) :
    parse_nova_core loads raw (nova_envelope T) =
      (match _try_parse_json loads T with
       | some r => .ok r
       | none => .ok (.obj [(text_key, .str T)])) := by
  cases h : _try_parse_json loads T with
  | some r =>
    simp only [parse_nova_core, get_content_blocks_nova, scan_nova, h]
  | none =>
    simp only [parse_nova_core, get_content_blocks_nova, scan_nova, h,
      legacy_text_lookup_nova, find_texts_nova, scan_found_texts, set_if_none]

theorem parse_nova_core_legacy (loads : PyStr → Option Json) (raw T : PyStr) :
    parse_nova_core loads raw (legacy_envelope T) =
      (match _try_parse_json loads T with
       | some r => .ok r
       | none => .ok (.obj [(text_key, .str T)])) := by
  cases h : _try_parse_json loads T with
  | some r =>
    simp only [parse_nova_core, get_content_blocks_legacy, scan_content_blocks,
      legacy_text_lookup_legacy, h]
  | none =>
    simp only [parse_nova_core, get_content_blocks_legacy, scan_content_blocks,
      legacy_text_lookup_legacy, h, find_texts_legacy, scan_found_texts, set_if_none]

-- ### Evaluating `_try_parse_json` under parser hypotheses

theorem set_if_none_ne_none (ft : Option Json) (t : Json) : set_if_none ft t ≠ none := by
  cases ft <;> simp [set_if_none]

theorem try_parse_of_strip (loads : PyStr → Option Json) (T : PyStr) (v : Json)
    (hS : loads (py_strip T) = some v)
    (hB : py_startswith (py_strip T) fence_marker = false)
    (hv : v ≠ Json.null) :
    _try_parse_json loads T = some v := by
  unfold _try_parse_json
  rw [strip_markdown_fence_not_fenced T hB, hS]
  cases v with
  | null => exact absurd rfl hv
  | bool b => rfl
  | num n => rfl
  | str s => rfl
  | arr xs => rfl
  | obj kvs => rfl

theorem try_parse_none_of_null (loads : PyStr → Option Json) (T : PyStr)
    (hS : loads (py_strip T) = some Json.null)
    (hB : py_startswith (py_strip T) fence_marker = false) :
    _try_parse_json loads T = none := by
  unfold _try_parse_json
  rw [strip_markdown_fence_not_fenced T hB, hS]

theorem try_parse_none_of_fail (loads : PyStr → Option Json) (T : PyStr)
    (hS : loads (py_strip T) = none)
    (hB : py_startswith (py_strip T) fence_marker = false) :
    _try_parse_json loads T = none := by
  unfold _try_parse_json
  rw [strip_markdown_fence_not_fenced T hB, hS]

theorem try_parse_fenced (loads : PyStr → Option Json) (tag T : PyStr) (v : Json)
    (htag : '\n' ∉ tag)
    (hS : loads (py_strip T) = some v)
    (hv : v ≠ Json.null) :
    _try_parse_json loads (fence_wrap tag T) = some v := by
  unfold _try_parse_json
  rw [strip_markdown_fence_wrap tag T htag, hS]
  cases v with
  | null => exact absurd rfl hv
  | bool b => rfl
  | num n => rfl
  | str s => rfl
  | arr xs => rfl
  | obj kvs => rfl

-- ### The core never raises once the envelope traversal is well typed

theorem parse_nova_core_ok_of_find (loads : PyStr → Option Json) (raw : PyStr)
    (m : Json) (items : List Json)
    (hchain : get_content_blocks m = .ok items)
    (htext : _find_texts m ≠ []) :
    returns_value (parse_nova_core loads raw m) = true := by
  unfold parse_nova_core
  rw [hchain]
  simp only []
  rcases hsc : scan_content_blocks loads items none with ⟨fst, snd⟩
  cases fst with
  | some r => simp [returns_value]
  | none =>
    simp only []
    cases hleg : legacy_text_lookup m with
    | none =>
      simp only []
      rcases hs3 : scan_found_texts loads (_find_texts m) snd with ⟨f2, s2⟩
      cases f2 with
      | some r => simp [returns_value]
      | none =>
        cases s2 with
        | some t2 => simp [returns_value]
        | none =>
          exact absurd (by rw [hs3])
            (scan_found_texts_snd_ne_none loads (_find_texts m) snd (Or.inr htext))
    | some t =>
      have step3 : ∀ ft : Option Json, ft ≠ none →
          returns_value
            (match scan_found_texts loads (_find_texts m) ft with
             | (some r, _) => (Except.ok r : Except PyError Json)
             | (none, some t2) => .ok (.obj [(text_key, t2)])
             | (none, none) => .error (.valueError (extraction_error_message raw))) = true := by
        intro ft hft
        rcases hs3 : scan_found_texts loads (_find_texts m) ft with ⟨f2, s2⟩
        cases f2 with
        | some r => simp [returns_value]
        | none =>
          cases s2 with
          | some t2 => simp [returns_value]
          | none =>
            exact absurd (by rw [hs3])
              (scan_found_texts_snd_ne_none loads (_find_texts m) ft (Or.inl hft))
      cases t with
      | str s =>
        cases htp : _try_parse_json loads s with
        | some r =>
          simp only [htp]
          simp [returns_value]
        | none =>
          simp only [htp]
          exact step3 _ (set_if_none_ne_none snd (.str s))
      | null => exact step3 _ (set_if_none_ne_none snd .null)
      | bool b => exact step3 _ (set_if_none_ne_none snd (.bool b))
      | num n => exact step3 _ (set_if_none_ne_none snd (.num n))
      | arr xs => exact step3 _ (set_if_none_ne_none snd (.arr xs))
      | obj kvs => exact step3 _ (set_if_none_ne_none snd (.obj kvs))

-- ### Concrete `loads` oracles for witnesses and counterexamples

def loads_c1x : PyStr → Option Json :=
  table_loads [("rx1".data, .arr [.obj [(text_key, .str ("hi".data))]])]

def loads_c1w : PyStr → Option Json :=
  table_loads [("rw1".data, .obj [(text_key, .str ("hi".data))])]

def loads_c2x : PyStr → Option Json :=
  table_loads [("rx2".data, nova_envelope ("null".data)), ("null".data, .null)]

def loads_c2w : PyStr → Option Json :=
  table_loads [("rw2".data, nova_envelope ("42".data)), ("42".data, .num 42)]

def loads_c3x : PyStr → Option Json :=
  table_loads [("rx3".data, legacy_envelope ("null".data)), ("null".data, .null)]

def loads_c3w : PyStr → Option Json :=
  table_loads [("rw3".data, legacy_envelope ("7".data)), ("7".data, .num 7)]

def loads_c4w : PyStr → Option Json :=
  table_loads [("rw4a".data, nova_envelope (fence_wrap ("json".data) ("\x7b\x7d".data))),
               ("rw4b".data, nova_envelope ("\x7b\x7d".data)),
               ("\x7b\x7d".data, .obj [])]

def loads_c10w : PyStr → Option Json :=
  table_loads [("rw10".data, legacy_envelope ("null".data)), ("null".data, .null)]

-- ### Claim C1

/-- Claim C1, counterexample: the envelope `[{"text": "hi"}]` is well formed
(decodes, parses as top-level JSON) and contains a string `text` block, yet
`parse_nova_response` raises `AttributeError` at
`model_response.get("output", {})` because the top level is a list, not a
dict.  So the claim "never raises for well-formed envelopes with a text
block" is false as stated. -/
theorem c1_counterexample :
    _find_texts (.arr [.obj [(text_key, .str ("hi".data))]]) = ["hi".data] ∧
    loads_c1x ("rx1".data) = some (.arr [.obj [(text_key, .str ("hi".data))]]) ∧
    parse_nova_response loads_c1x (some ("rx1".data)) = .error .attributeError :=
  ⟨rfl, rfl, rfl⟩

/-- Claim C1, amended: for every input that decodes and top-level-parses as
JSON, if additionally the structured-path traversal is well typed (the
`.get`-chain `output → message → content` and the iteration over the result
do not raise) and the parsed structure contains at least one string-valued
`text` field anywhere, then `parse_nova_response` returns a value and never
raises. -/
theorem c1_amended_returns_for_well_typed_envelope
    (loads : PyStr → Option Json) (raw : PyStr) (m : Json) (items : List Json)
    (hload : loads raw = some m)
    (hchain : get_content_blocks m = .ok items)
    (htext : _find_texts m ≠ []) :
    returns_value (parse_nova_response loads (some raw)) = true := by
  simp only [parse_nova_response, hload]
  exact parse_nova_core_ok_of_find loads raw m items hchain htext

/-- Claim C1, witness for the amended theorem at the envelope
`{"text": "hi"}`. -/
theorem c1_witness :
    _find_texts (.obj [(text_key, .str ("hi".data))]) = ["hi".data] ∧
    returns_value (parse_nova_response loads_c1w (some ("rw1".data))) = true :=
  ⟨rfl, c1_amended_returns_for_well_typed_envelope loads_c1w ("rw1".data)
    (.obj [(text_key, .str ("hi".data))]) [] rfl rfl (by decide)⟩

-- ### Claim C2

/-- Claim C2, counterexample: with `T = "null"` (a valid JSON document whose
parsed value is `null`), the Nova envelope does not make
`parse_nova_response` return the parsed value (`null`): `_try_parse_json`
reports a parsed `null` with the same sentinel as a parse failure, so the
function returns the fallback `{"text": "null"}` instead. -/
theorem c2_counterexample :
    loads_c2x ("null".data) = some Json.null ∧
    loads_c2x ("rx2".data) = some (nova_envelope ("null".data)) ∧
    parse_nova_response loads_c2x (some ("rx2".data)) =
      .ok (.obj [(text_key, .str ("null".data))]) :=
  ⟨rfl, rfl, rfl⟩

/-- Claim C2, amended: for every input encoding
`{"output":{"message":{"content":[{"text": T}]}}}` where `T` is a valid
JSON document whose parsed value is not the JSON literal `null`,
`parse_nova_response` returns the value obtained by JSON-parsing `T`.
(The hypotheses on `py_strip T` state the stdlib parser's tolerance of
surrounding whitespace and the fact that no valid JSON document starts
with a backtick.) -/
theorem c2_amended_nova_embedded_json
    (loads : PyStr → Option Json) (raw T : PyStr) (v : Json)
    (hload : loads raw = some (nova_envelope T))
    (hT : loads T = some v)
    (hS : loads (py_strip T) = some v)
    (hB : py_startswith (py_strip T) fence_marker = false)
    (hv : v ≠ Json.null) :
    parse_nova_response loads (some raw) = .ok v := by
  simp only [parse_nova_response, hload]
  rw [parse_nova_core_nova, try_parse_of_strip loads T v hS hB hv]

/-- Claim C2, witness for the amended theorem with `T = "42"`. -/
theorem c2_witness :
    parse_nova_response loads_c2w (some ("rw2".data)) = .ok (.num 42) :=
  c2_amended_nova_embedded_json loads_c2w ("rw2".data) ("42".data) (.num 42)
    rfl rfl rfl rfl (fun h => Json.noConfusion h)

-- ### Claim C3

/-- Claim C3, counterexample: with `T = "null"` the legacy envelope
`{"content":[{"text":"null"}]}` yields `{"text": "null"}`, not the parsed
value `null`, because a parsed JSON `null` is indistinguishable from a
parse failure inside `_try_parse_json`. -/
theorem c3_counterexample :
    loads_c3x ("null".data) = some Json.null ∧
    loads_c3x ("rx3".data) = some (legacy_envelope ("null".data)) ∧
    parse_nova_response loads_c3x (some ("rx3".data)) =
      .ok (.obj [(text_key, .str ("null".data))]) :=
  ⟨rfl, rfl, rfl⟩

/-- Claim C3, amended: for every input encoding `{"content":[{"text": T}]}`
(no `output` key) where `T` is a valid JSON document whose parsed value is
not the JSON literal `null`, `parse_nova_response` returns the value
obtained by JSON-parsing `T`. -/
theorem c3_amended_legacy_embedded_json
    (loads : PyStr → Option Json) (raw T : PyStr) (v : Json)
    (hload : loads raw = some (legacy_envelope T))
    (hT : loads T = some v)
    (hS : loads (py_strip T) = some v)
    (hB : py_startswith (py_strip T) fence_marker = false)
    (hv : v ≠ Json.null) :
    parse_nova_response loads (some raw) = .ok v := by
  simp only [parse_nova_response, hload]
  rw [parse_nova_core_legacy, try_parse_of_strip loads T v hS hB hv]

/-- Claim C3, witness for the amended theorem with `T = "7"`. -/
theorem c3_witness :
    parse_nova_response loads_c3w (some ("rw3".data)) = .ok (.num 7) :=
  c3_amended_legacy_embedded_json loads_c3w ("rw3".data) ("7".data) (.num 7)
    rfl rfl rfl rfl (fun h => Json.noConfusion h)

-- ### Claim C4

/-- Claim C4: wrapping the embedded JSON payload in a markdown triple-backtick
fence (optionally tagged, the payload sitting between the first newline after
the opening fence and the closing fence) does not change the normalizer's
result: for any two raw inputs encoding the Nova envelope around the fenced
and the unfenced payload, `parse_nova_response` returns the same value.
`hS` states that the payload parses to a JSON object (the claim's "both
encode the same object"); a parsed `null` would not satisfy this. -/
theorem c4_fence_invariance
    (loads : PyStr → Option Json) (raw1 raw2 tag T : PyStr)
    (kvs : List (PyStr × Json))
    (htag : '\n' ∉ tag)
    (hload1 : loads raw1 = some (nova_envelope (fence_wrap tag T)))
    (hload2 : loads raw2 = some (nova_envelope T))
    (hS : loads (py_strip T) = some (.obj kvs))
    (hB : py_startswith (py_strip T) fence_marker = false) :
    parse_nova_response loads (some raw1) = parse_nova_response loads (some raw2) := by
  have h1 : _try_parse_json loads (fence_wrap tag T) = some (.obj kvs) :=
    try_parse_fenced loads tag T _ htag hS (fun h => Json.noConfusion h)
  have h2 : _try_parse_json loads T = some (.obj kvs) :=
    try_parse_of_strip loads T _ hS hB (fun h => Json.noConfusion h)
  simp only [parse_nova_response, hload1, hload2]
  rw [parse_nova_core_nova, parse_nova_core_nova, h1, h2]

/-- Claim C4, witness: the fenced payload `"```json\n{}\n```"` and the plain
payload `"{}"` produce the same result (the empty object). -/
theorem c4_witness :
    parse_nova_response loads_c4w (some ("rw4a".data)) =
      parse_nova_response loads_c4w (some ("rw4b".data)) ∧
    parse_nova_response loads_c4w (some ("rw4a".data)) = .ok (.obj []) :=
  ⟨c4_fence_invariance loads_c4w ("rw4a".data) ("rw4b".data) ("json".data)
      ("\x7b\x7d".data) [] (by decide) rfl rfl rfl rfl, rfl⟩

-- ### Claim C10

/-- Claim C10: a text block whose fence-stripped content parses as the JSON
literal `null` is treated exactly like a non-JSON candidate: Python's `None`
is both the failure sentinel and the parsed `null`, so `_try_parse_json`
returns the sentinel and `parse_nova_response` falls through to the
plain-text fallback, e.g. `{"content":[{"text":"null"}]}` yields
`{"text": "null"}`, not `null`. -/
theorem c10_null_payload_skipped
    (loads : PyStr → Option Json) (raw T : PyStr)
    (hload : loads raw = some (legacy_envelope T))
    (hS : loads (py_strip T) = some Json.null)
    (hB : py_startswith (py_strip T) fence_marker = false) :
    _try_parse_json loads T = none ∧
    parse_nova_response loads (some raw) = .ok (.obj [(text_key, .str T)]) := by
  have hn := try_parse_none_of_null loads T hS hB
  refine ⟨hn, ?_⟩
  simp only [parse_nova_response, hload]
  rw [parse_nova_core_legacy, hn]

/-- Claim C10, witness at the input `{"content":[{"text":"null"}]}`. -/
theorem c10_witness :
    _try_parse_json loads_c10w ("null".data) = none ∧
    parse_nova_response loads_c10w (some ("rw10".data)) =
      .ok (.obj [(text_key, .str ("null".data))]) :=
  c10_null_payload_skipped loads_c10w ("rw10".data) ("null".data) rfl rfl rfl

-- ### Option algebra for the `first_text` bookkeeping

theorem set_if_none_eq_opt_or (ft : Option Json) (t : Json) :
    set_if_none ft t = opt_or ft (some t) := by
  cases ft <;> rfl

theorem opt_or_assoc (a b c : Option Json) :
    opt_or (opt_or a b) c = opt_or a (opt_or b c) := by
  cases a <;> cases b <;> rfl

theorem recorded_candidates_head (m : Json) (items : List Json) :
    (recorded_candidates m items).head? =
      opt_or ((struct_texts items).head?.map Json.str)
        (opt_or (legacy_text_lookup m) ((_find_texts m).head?.map Json.str)) := by
  unfold recorded_candidates
  cases struct_texts items <;> cases hleg : legacy_text_lookup m <;>
    cases _find_texts m <;> simp [opt_or]

-- ### Claim C5

def loads_c5x : PyStr → Option Json :=
  table_loads [("rx5".data,
    .obj [(content_key, .arr [.obj [(text_key, .num 5)]]),
          ("z".data, .obj [(text_key, .str ("hello".data))])])]

/-- Claim C5, counterexample: in
`{"content":[{"text": 5}], "z": {"text": "hello"}}` the only (hence first)
string-valued text block is `"hello"` and no candidate parses as JSON, yet
`parse_nova_response` returns `{"text": 5}`: the legacy path records
`content[0].text` as the first candidate even though it is not a string, so
the result is not `{"text": <first text block>}` as claimed. -/
theorem c5_counterexample :
    _find_texts (.obj [(content_key, .arr [.obj [(text_key, .num 5)]]),
          ("z".data, .obj [(text_key, .str ("hello".data))])]) = ["hello".data] ∧
    parse_nova_response loads_c5x (some ("rx5".data)) = .ok (.obj [(text_key, .num 5)]) :=
  ⟨rfl, rfl⟩

/-- Claim C5, amended: for every well-typed envelope, when no candidate text
parses as JSON, `parse_nova_response` returns exactly `{"text": c}` where `c`
is the first candidate the function records, verbatim (fence markers still
present): the first string-valued `text` of the structured content list if
any, otherwise the value at the legacy path `content[0].text` when that
lookup succeeds — even when that value is not a string — otherwise the first
string-valued `text` found by the recursive traversal. -/
theorem c5_amended_plain_text_fallback
    (loads : PyStr → Option Json) (raw : PyStr) (m : Json) (items : List Json) (c : Json)
    (hload : loads raw = some m)
    (hchain : get_content_blocks m = .ok items)
    (hs : ∀ t ∈ struct_texts items, _try_parse_json loads t = none)
    (hl : ∀ s, legacy_text_lookup m = some (.str s) → _try_parse_json loads s = none)
    (hf : ∀ t ∈ _find_texts m, _try_parse_json loads t = none)
    (hc : (recorded_candidates m items).head? = some c) :
    parse_nova_response loads (some raw) = .ok (.obj [(text_key, c)]) := by
  rw [recorded_candidates_head] at hc
  simp only [parse_nova_response, hload]
  unfold parse_nova_core
  rw [hchain]
  simp only []
  rw [scan_content_blocks_all_fail loads items none hs]
  simp only [opt_or]
  cases hleg : legacy_text_lookup m with
  | none =>
    rw [hleg] at hc
    simp only [hleg]
    rw [scan_found_texts_all_fail loads (_find_texts m) _ hf]
    have hc2 : opt_or ((struct_texts items).head?.map Json.str)
        ((_find_texts m).head?.map Json.str) = some c := hc
    rw [hc2]
  | some t =>
    rw [hleg] at hc
    simp only [hleg]
    have hkey : opt_or ((struct_texts items).head?.map Json.str) (some t) = some c := by
      rw [← hc]
      cases (struct_texts items).head?.map Json.str <;> rfl
    have hfinal :
        opt_or (set_if_none ((struct_texts items).head?.map Json.str) t)
          ((_find_texts m).head?.map Json.str) = some c := by
      rw [set_if_none_eq_opt_or, opt_or_assoc]
      rw [show opt_or (some t) ((_find_texts m).head?.map Json.str) = some t from rfl]
      exact hkey
    cases t with
    | str s =>
      have hps : _try_parse_json loads s = none := hl s hleg
      simp only [hps]
      rw [scan_found_texts_all_fail loads (_find_texts m) _ hf]
      rw [hfinal]
    | null =>
      simp only []
      rw [scan_found_texts_all_fail loads (_find_texts m) _ hf]
      rw [hfinal]
    | bool b =>
      simp only []
      rw [scan_found_texts_all_fail loads (_find_texts m) _ hf]
      rw [hfinal]
    | num n =>
      simp only []
      rw [scan_found_texts_all_fail loads (_find_texts m) _ hf]
      rw [hfinal]
    | arr xs =>
      simp only []
      rw [scan_found_texts_all_fail loads (_find_texts m) _ hf]
      rw [hfinal]
    | obj kvs =>
      simp only []
      rw [scan_found_texts_all_fail loads (_find_texts m) _ hf]
      rw [hfinal]

def loads_c5w : PyStr → Option Json :=
  table_loads [("rw5".data,
    .obj [(content_key, .arr [.obj [(text_key, .num 5)]]),
          ("z".data, .obj [(text_key, .str ("hello".data))])])]

/-- Claim C5, witness for the amended theorem at
`{"content":[{"text": 5}], "z": {"text": "hello"}}`: the recorded first
candidate is the legacy value `5`. -/
theorem c5_witness :
    parse_nova_response loads_c5w (some ("rw5".data)) = .ok (.obj [(text_key, .num 5)]) := by
  refine c5_amended_plain_text_fallback loads_c5w ("rw5".data)
    (.obj [(content_key, .arr [.obj [(text_key, .num 5)]]),
           ("z".data, .obj [(text_key, .str ("hello".data))])])
    [] (.num 5) rfl rfl ?_ ?_ ?_ rfl
  · intro t ht
    exact absurd ht (List.not_mem_nil t)
  · intro s h
    exact absurd (Option.some.inj h) (fun hh => Json.noConfusion hh)
  · intro t ht
    have ht2 : t ∈ (["hello".data] : List PyStr) := ht
    rw [List.mem_singleton] at ht2
    subst ht2
    rfl

-- ### Claim C6

def loads_c6x : PyStr → Option Json :=
  table_loads [("rx6".data,
    .obj [("a".data, .obj [(text_key, .str ("null".data))]),
          ("b".data, .obj [(text_key, .str ("42".data))])]),
    ("null".data, .null), ("42".data, .num 42)]

/-- Claim C6, counterexample: on `{"a":{"text":"null"},"b":{"text":"42"}}`
the pre-order candidates are `["null", "42"]` and the first one whose
fence-stripped content parses as JSON is `"null"`, yet the function does not
return its parsed value: `_try_parse_json` reports the parsed `null` with
the failure sentinel, skips it, and returns the parse of the later
candidate, `42`.  So "uses the first candidate whose content parses as
JSON" is false as stated. -/
theorem c6_counterexample :
    _find_texts (.obj [("a".data, .obj [(text_key, .str ("null".data))]),
          ("b".data, .obj [(text_key, .str ("42".data))])]) =
      ["null".data, "42".data] ∧
    loads_c6x ("null".data) = some Json.null ∧
    parse_nova_response loads_c6x (some ("rx6".data)) = .ok (.num 42) :=
  ⟨rfl, rfl, rfl⟩

/-- Claim C6, amended: when the structured content list yields no usable
(string) text block and the legacy lookup `content[0].text` fails, but
string-valued `text` fields exist somewhere in the tree, the function scans
`_find_texts m` — the recursive, order-preserving pre-order traversal — and
returns the parsed value of the first candidate whose fence-stripped content
parses as JSON with a value other than the literal `null`; a candidate
parsing to `null` is skipped like a non-JSON one (the C10 conflation).
`first_parsed` is exactly this null-skipping selection. -/
theorem c6_recursive_fallback
    (loads : PyStr → Option Json) (raw : PyStr) (m : Json) (items : List Json) (v : Json)
    (hload : loads raw = some m)
    (hchain : get_content_blocks m = .ok items)
    (hs : struct_texts items = [])
    (hleg : legacy_text_lookup m = none)
    (hfp : first_parsed loads (_find_texts m) = some v) :
    parse_nova_response loads (some raw) = .ok v := by
  have hscan : scan_content_blocks loads items none = (none, none) := by
    rw [scan_content_blocks_all_fail loads items none (by rw [hs]; simp), hs]
    rfl
  simp only [parse_nova_response, hload]
  unfold parse_nova_core
  rw [hchain]
  simp only []
  rw [hscan]
  simp only [hleg]
  have hf2 : (scan_found_texts loads (_find_texts m) none).1 = some v := by
    rw [scan_found_texts_fst]
    exact hfp
  rcases hsf : scan_found_texts loads (_find_texts m) none with ⟨f2, s2⟩
  rw [hsf] at hf2
  simp only at hf2
  subst hf2
  rfl

def loads_c6w : PyStr → Option Json :=
  table_loads [("rw6".data,
    .obj [("foo".data, .obj [("bar".data,
      .arr [.obj [("baz".data, .obj [(text_key, .str ("77".data))])]])])]),
    ("77".data, .num 77)]

/-- Claim C6, witness at the deeply nested envelope
`{"foo":{"bar":[{"baz":{"text":"77"}}]}}`, whose only text block sits three
levels deep and parses as the number 77. -/
theorem c6_witness :
    parse_nova_response loads_c6w (some ("rw6".data)) = .ok (.num 77) :=
  c6_recursive_fallback loads_c6w ("rw6".data)
    (.obj [("foo".data, .obj [("bar".data,
      .arr [.obj [("baz".data, .obj [(text_key, .str ("77".data))])]])])])
    [] (.num 77) rfl rfl rfl rfl rfl

-- ### Claim C7

def loads_c7x : PyStr → Option Json :=
  table_loads [("rx7".data, .obj [(content_key, .arr [.obj [(text_key, .num 5)]])])]

/-- Claim C7, counterexample: `{"content":[{"text": 5}]}` contains no
string-valued `text` field anywhere, yet `parse_nova_response` does not
raise an extraction error: the legacy path records the non-string value `5`
as `first_text`, so the function returns `{"text": 5}` instead of raising. -/
theorem c7_counterexample :
    _find_texts (.obj [(content_key, .arr [.obj [(text_key, .num 5)]])]) = [] ∧
    parse_nova_response loads_c7x (some ("rx7".data)) = .ok (.obj [(text_key, .num 5)]) :=
  ⟨rfl, rfl⟩

/-- Claim C7, amended: for every input that decodes and parses as top-level
JSON such that the structured-path traversal is well typed, no string-valued
`text` field exists anywhere in the parsed structure, and the legacy lookup
`content[0].text` yields nothing, `parse_nova_response` raises a
`ValueError` whose message carries a preview of the decoded payload: its
first 1000 characters, followed by `"..."` exactly when the payload is
longer than 1000 characters. -/
theorem c7_amended_extraction_error
    (loads : PyStr → Option Json) (raw : PyStr) (m : Json) (items : List Json)
    (hload : loads raw = some m)
    (hchain : get_content_blocks m = .ok items)
    (hfind : _find_texts m = [])
    (hleg : legacy_text_lookup m = none) :
    parse_nova_response loads (some raw) =
      .error (.valueError
        (("Unable to extract text from model response. Raw response preview: ".data)
          ++ (raw.take 1000 ++ (if 1000 < raw.length then "...".data else [])))) := by
  have hs : struct_texts items = [] := by
    cases hstruct : struct_texts items with
    | nil => rfl
    | cons t ts =>
      have hmem : t ∈ _find_texts m :=
        struct_texts_subset_chain m items hchain t (by rw [hstruct]; simp)
      rw [hfind] at hmem
      exact absurd hmem (List.not_mem_nil t)
  have hscan : scan_content_blocks loads items none = (none, none) := by
    rw [scan_content_blocks_all_fail loads items none (by rw [hs]; simp), hs]
    rfl
  simp only [parse_nova_response, hload]
  unfold parse_nova_core
  rw [hchain]
  simp only []
  rw [hscan]
  simp only [hleg]
  rw [hfind]
  rfl

def loads_c7w : PyStr → Option Json :=
  table_loads [("rw7".data, .obj [("foo".data, .str ("bar".data))])]

/-- Claim C7, witness for the amended theorem at `{"foo":"bar"}` (no `text`
field anywhere): the raised message carries the 4-character payload preview
with no ellipsis. -/
theorem c7_witness :
    parse_nova_response loads_c7w (some ("rw7".data)) =
      .error (.valueError
        (("Unable to extract text from model response. Raw response preview: ".data)
          ++ (("rw7".data).take 1000
            ++ (if 1000 < ("rw7".data).length then "...".data else [])))) :=
  c7_amended_extraction_error loads_c7w ("rw7".data)
    (.obj [("foo".data, .str ("bar".data))]) [] rfl rfl rfl rfl

-- ### Claim C8

/-- Claim C8: whenever the input bytes do not decode as UTF-8, or the decoded
text does not parse as top-level JSON (so `json.loads` raises, and the
handler's identical retry raises again), `parse_nova_response` propagates an
error of one of the two malformed-input kinds instead of returning a
canonical result. -/
theorem c8_malformed_inputs_raise
    (loads : PyStr → Option Json) (decoded : Option PyStr)
    (h : ∀ raw, decoded = some raw → loads raw = none) :
    ∃ e, parse_nova_response loads decoded = .error e ∧ is_malformed_error e = true := by
  cases decoded with
  | none => exact ⟨.unicodeDecodeError, rfl, rfl⟩
  | some raw =>
    have hl := h raw rfl
    refine ⟨.jsonDecodeError, ?_, rfl⟩
    simp only [parse_nova_response, hl]

def loads_c8w : PyStr → Option Json := fun _ => none

/-- Claim C8, witness: a decoded payload on which the parser fails yields a
malformed-input error. -/
theorem c8_witness :
    ∃ e, parse_nova_response loads_c8w (some ("not json".data)) = .error e ∧
      is_malformed_error e = true :=
  c8_malformed_inputs_raise loads_c8w (some ("not json".data)) (fun _ _ => rfl)

-- ### Claim C9

def loads_c9x : PyStr → Option Json :=
  table_loads [("rx9".data, legacy_envelope ("[1, 2]".data)),
               ("[1, 2]".data, .arr [.num 1, .num 2])]

/-- Claim C9, counterexample: on `{"content":[{"text":"[1, 2]"}]}` the
normalizer returns the JSON list `[1, 2]`, not a mapping: the early return
hands back whatever the embedded text parses to, so the claim "no other
value type (list, string, number, boolean, null) is ever returned" is false. -/
theorem c9_counterexample :
    parse_nova_response loads_c9x (some ("rx9".data)) = .ok (.arr [.num 1, .num 2]) ∧
    is_mapping (parse_nova_response loads_c9x (some ("rx9".data))) = false :=
  ⟨rfl, rfl⟩

/-- Claim C9, amended: every value `parse_nova_response` returns is either
the `_try_parse_json` result — the fence-stripped JSON parse, never `null`
but possibly any other JSON value (mapping, list, string, number, boolean)
— of one of the input's own recorded text candidates (a string `text` of
the structured content list, the string value of the legacy
`content[0].text` lookup, or a string found by the recursive traversal), or
the single-key mapping `{"text": c}` where `c` is the first candidate the
function recorded. -/
theorem c9_amended_result_shape
    (loads : PyStr → Option Json) (raw : PyStr) (m : Json) (items : List Json) (v : Json)
    (hld : loads raw = some m)
    (hchain : get_content_blocks m = .ok items)
    (h : parse_nova_response loads (some raw) = .ok v) :
    (v ≠ Json.null ∧ ∃ s, Json.str s ∈ recorded_candidates m items ∧
        _try_parse_json loads s = some v) ∨
      ∃ t, (recorded_candidates m items).head? = some t ∧ v = Json.obj [(text_key, t)] := by
  simp only [parse_nova_response, hld] at h
  unfold parse_nova_core at h
  rw [hchain] at h
  simp only [] at h
  rcases hsc : scan_content_blocks loads items none with ⟨f1, s1⟩
  rw [hsc] at h
  cases f1 with
  | some r =>
    simp only [Except.ok.injEq] at h
    have hr : first_parsed loads (struct_texts items) = some v := by
      rw [← scan_content_blocks_fst loads items none, hsc]
      simp [h]
    obtain ⟨s, hsmem, hps⟩ := first_parsed_some loads (struct_texts items) v hr
    refine Or.inl ⟨fun hv => (try_parse_ne_null loads s) (hv ▸ hps), s, ?_, hps⟩
    unfold recorded_candidates
    exact List.mem_append_left _ (List.mem_append_left _ (List.mem_map_of_mem Json.str hsmem))
  | none =>
    simp only [] at h
    have hfst : first_parsed loads (struct_texts items) = none := by
      rw [← scan_content_blocks_fst loads items none, hsc]
    have hall1 : ∀ t ∈ struct_texts items, _try_parse_json loads t = none :=
      first_parsed_eq_none loads (struct_texts items) hfst
    have hs1 : s1 = (struct_texts items).head?.map Json.str := by
      have heq := scan_content_blocks_all_fail loads items none hall1
      rw [hsc] at heq
      exact congrArg Prod.snd heq
    have hhead := recorded_candidates_head m items
    have step3 : ∀ ft : Option Json,
        opt_or ft ((_find_texts m).head?.map Json.str) =
          (recorded_candidates m items).head? →
        (match scan_found_texts loads (_find_texts m) ft with
         | (some r, _) => (Except.ok r : Except PyError Json)
         | (none, some t2) => .ok (.obj [(text_key, t2)])
         | (none, none) => .error (.valueError (extraction_error_message raw))) = .ok v →
        (v ≠ Json.null ∧ ∃ s, Json.str s ∈ recorded_candidates m items ∧
            _try_parse_json loads s = some v) ∨
          ∃ t, (recorded_candidates m items).head? = some t ∧
            v = Json.obj [(text_key, t)] := by
      intro ft hft hm
      rcases hsf : scan_found_texts loads (_find_texts m) ft with ⟨f2, s2⟩
      rw [hsf] at hm
      cases f2 with
      | some r =>
        simp only [Except.ok.injEq] at hm
        have hr : first_parsed loads (_find_texts m) = some v := by
          rw [← scan_found_texts_fst loads (_find_texts m) ft, hsf]
          simp [hm]
        obtain ⟨s, hsmem, hps⟩ := first_parsed_some loads (_find_texts m) v hr
        refine Or.inl ⟨fun hv => (try_parse_ne_null loads s) (hv ▸ hps), s, ?_, hps⟩
        unfold recorded_candidates
        exact List.mem_append_right _ (List.mem_map_of_mem Json.str hsmem)
      | none =>
        cases s2 with
        | some t2 =>
          simp only [Except.ok.injEq] at hm
          have hfst3 : first_parsed loads (_find_texts m) = none := by
            rw [← scan_found_texts_fst loads (_find_texts m) ft, hsf]
          have hall3 : ∀ t ∈ _find_texts m, _try_parse_json loads t = none :=
            first_parsed_eq_none loads (_find_texts m) hfst3
          have heq3 := scan_found_texts_all_fail loads (_find_texts m) ft hall3
          rw [hsf] at heq3
          have ht2 : some t2 = opt_or ft ((_find_texts m).head?.map Json.str) :=
            congrArg Prod.snd heq3
          exact Or.inr ⟨t2, by rw [← hft, ← ht2], hm.symm⟩
        | none => simp at hm
    cases hleg : legacy_text_lookup m with
    | none =>
      rw [hleg] at h
      rw [hleg] at hhead
      refine step3 s1 ?_ h
      rw [hs1]
      exact hhead.symm
    | some t =>
      rw [hleg] at h
      rw [hleg] at hhead
      have hft : opt_or (set_if_none s1 t) ((_find_texts m).head?.map Json.str) =
          (recorded_candidates m items).head? := by
        rw [hs1, set_if_none_eq_opt_or, opt_or_assoc]
        exact hhead.symm
      cases t with
      | str s =>
        simp only [] at h
        cases htp : _try_parse_json loads s with
        | some r =>
          rw [htp] at h
          simp only [Except.ok.injEq] at h
          refine Or.inl ⟨fun hv => (try_parse_ne_null loads s) (by rw [htp, h, hv]), s, ?_,
            by rw [htp, h]⟩
          unfold recorded_candidates
          rw [hleg]
          exact List.mem_append_left _ (List.mem_append_right _ (by simp))
        | none =>
          rw [htp] at h
          exact step3 _ hft h
      | null => exact step3 _ hft h
      | bool b => exact step3 _ hft h
      | num n => exact step3 _ hft h
      | arr xs => exact step3 _ hft h
      | obj kvs => exact step3 _ hft h

def loads_c9w : PyStr → Option Json :=
  table_loads [("rw9".data, legacy_envelope ("9".data)), ("9".data, .num 9)]

/-- Claim C9, witness for the amended theorem: on the legacy envelope around
`"9"` the returned value `9` is the parse of a recorded candidate (left
disjunct). -/
theorem c9_witness :
    (Json.num 9 ≠ Json.null ∧
      ∃ s, Json.str s ∈ recorded_candidates (legacy_envelope ("9".data)) [] ∧
        _try_parse_json loads_c9w s = some (Json.num 9)) ∨
      ∃ t, (recorded_candidates (legacy_envelope ("9".data)) []).head? = some t ∧
        Json.num 9 = Json.obj [(text_key, t)] :=
  c9_amended_result_shape loads_c9w ("rw9".data) (legacy_envelope ("9".data)) []
    (.num 9) rfl rfl rfl
